import Mathlib

/-!
Verification of the RISC-V specification-development dashboard
(data-refresh and filter/search pipeline).

The JavaScript source is shallowly embedded:
* untyped YAML/JS documents become the inductive `JVal` with JS truthiness
  and `typeof x == "object"` modeled explicitly;
* `fetchYaml`'s network and YAML parsing are passed in as functions
  (the environment), and the fallback loop is translated structurally;
* the React state updated by `loadAndRender` becomes an explicit
  `AppState` record and the handler a pure step function
  (wall-clock `Date` values are threaded as an abstract `now : Nat`;
  the toast auto-clear timer, a real-time effect, is not modeled);
* the typed part of the document (issues, subtasks, linked issues) is a
  family of structures mirroring exactly the fields the code reads, with
  a field absent in the YAML modeled as `""`/`none` matching the
  source's `x || ""` / `?? null` accesses.
-/

namespace SDE

/-- Untyped JS/YAML value (numbers restricted to integers; the dashboard
documents carry only integral numbers). -/
inductive JVal where
  | null : JVal
  | bool (b : Bool) : JVal
  | num (n : Int) : JVal
  | str (s : String) : JVal
  | arr (elems : List JVal) : JVal
  | obj (fields : List (String × JVal)) : JVal

namespace JVal

mutual

/-- Structural equality test on JS values (used to model `!==` on the
scalar refresh fingerprint; the fingerprint is always a scalar, where JS
strict equality is value equality). -/
def beq : JVal → JVal → Bool
  | .null, .null => true
  | .bool a, .bool b => a == b
  | .num a, .num b => a == b
  | .str a, .str b => a == b
  | .arr a, .arr b => beqElems a b
  | .obj a, .obj b => beqFields a b
  | _, _ => false

/-- Pointwise `beq` on element lists. -/
def beqElems : List JVal → List JVal → Bool
  | [], [] => true
  | a :: as, b :: bs => beq a b && beqElems as bs
  | _, _ => false

/-- Pointwise `beq` on field lists (keys and values). -/
def beqFields : List (String × JVal) → List (String × JVal) → Bool
  | [], [] => true
  | (ka, va) :: as, (kb, vb) :: bs => ka == kb && beq va vb && beqFields as bs
  | _, _ => false

end

/-- JS truthiness: `null`, `false`, `0` and `""` are falsy; every object
and array (even empty) is truthy. -/
def truthy : JVal → Bool
  | .null => false
  | .bool b => b
  | .num n => n != 0
  | .str s => s != ""
  | .arr _ => true
  | .obj _ => true

/-- `typeof v == "object"`: true for objects, arrays and `null`. -/
def typeofObject : JVal → Bool
  | .null => true
  | .arr _ => true
  | .obj _ => true
  | _ => false

/-- Property access `v.key`: `none` models `undefined` (also the result
of reading a named property off a non-object). -/
def jget : JVal → String → Option JVal
  | .obj fields, k => fields.lookup k
  | _, _ => none

/-- Property access defaulted to `undefined`-as-falsy: the value when
present, `JVal.null` otherwise (for truthiness tests `undefined` and
`null` behave alike). -/
def jgetD (v : JVal) (k : String) : JVal := (v.jget k).getD .null

end JVal

/-! ### Validator — `validateYamlShape` (src/unnamed/part_004) -/

/-- Result of shape validation: `ok` flag plus collected error strings. -/
structure ValidationResult where
  ok : Bool
  errors : List String
  deriving DecidableEq

/-- JS loose equality to null (`x == null`): true exactly for `null` and
`undefined` (an absent property). -/
def looseNull : Option JVal → Bool
  | none => true
  | some .null => true
  | some _ => false

/-- `validateYamlShape(data)`: root must be a truthy object; then each of
`schema_version` (non-nullish), `counts` (truthy object) and `phases`
(truthy object) is checked, collecting every violated check. -/
def validateYamlShape (data : JVal) : ValidationResult :=
  if !data.truthy || !data.typeofObject then
    { ok := false, errors := ["YAML root must be an object."] }
  else
    let e1 : List String :=
      if looseNull (data.jget "schema_version") then ["Missing schema_version."] else []
    let e2 : List String :=
      let c := data.jgetD "counts"
      if !c.truthy || !c.typeofObject then ["Missing counts object."] else []
    let e3 : List String :=
      let p := data.jgetD "phases"
      if !p.truthy || !p.typeofObject then ["Missing phases object."] else []
    let errors := e1 ++ e2 ++ e3
    { ok := errors.isEmpty, errors := errors }

/-- "Object-valued" in the JS sense of the validator's accepted values:
an object or an array (both have `typeof == "object"` and are truthy). -/
def isObjLike : JVal → Bool
  | .obj _ => true
  | .arr _ => true
  | _ => false

/-- A value passes the combined truthiness + `typeof "object"` test of
the validator exactly when it is an object or an array. -/
theorem truthy_and_typeofObject (v : JVal) :
    (v.truthy && v.typeofObject) = isObjLike v := by
  cases v <;> simp [JVal.truthy, JVal.typeofObject, isObjLike]

theorem not_truthy_or_not_typeofObject (v : JVal) :
    (!v.truthy || !v.typeofObject) = !(isObjLike v) := by
  cases v <;> simp [JVal.truthy, JVal.typeofObject, isObjLike]

theorem looseNull_eq_false_iff (o : Option JVal) :
    looseNull o = false ↔ ∃ v, o = some v ∧ v ≠ JVal.null := by
  cases o with
  | none => simp [looseNull]
  | some v => cases v <;> simp [looseNull]

theorem isObjLike_getD_iff (o : Option JVal) :
    isObjLike (o.getD .null) = true ↔ ∃ v, o = some v ∧ isObjLike v = true := by
  cases o with
  | none => simp [isObjLike]
  | some v => simp

/-- C1: validation succeeds exactly when the document is an object with a
non-null `schema_version`, an object-valued `counts` and an object-valued
`phases` (in JS, arrays also have `typeof "object"`, and a present field
whose value is an object is necessarily truthy). -/
theorem validateYamlShape_ok_iff (D : JVal) :
    (validateYamlShape D).ok = true ↔
      (isObjLike D = true ∧
       (∃ v, D.jget "schema_version" = some v ∧ v ≠ JVal.null) ∧
       (∃ c, D.jget "counts" = some c ∧ isObjLike c = true) ∧
       (∃ p, D.jget "phases" = some p ∧ isObjLike p = true)) := by
  unfold validateYamlShape
  rw [not_truthy_or_not_typeofObject]
  by_cases hD : isObjLike D = true
  · rw [hD]
    simp only [Bool.not_true, Bool.false_eq_true, if_false]
    rw [not_truthy_or_not_typeofObject, not_truthy_or_not_typeofObject]
    simp only [JVal.jgetD, List.isEmpty_iff, List.append_eq_nil]
    constructor
    · rintro ⟨⟨h1, h2⟩, h3⟩
      refine ⟨trivial, ?_, ?_, ?_⟩
      · cases hln : looseNull (D.jget "schema_version") with
        | false => exact (looseNull_eq_false_iff _).mp hln
        | true => simp [hln] at h1
      · cases hc : isObjLike ((D.jget "counts").getD .null) with
        | false => simp [hc] at h2
        | true => exact (isObjLike_getD_iff _).mp hc
      · cases hp : isObjLike ((D.jget "phases").getD .null) with
        | false => simp [hp] at h3
        | true => exact (isObjLike_getD_iff _).mp hp
    · rintro ⟨-, h1, h2, h3⟩
      rw [← looseNull_eq_false_iff] at h1
      rw [← isObjLike_getD_iff] at h2
      rw [← isObjLike_getD_iff] at h3
      simp [h1, h2, h3]
  · rw [Bool.not_eq_true] at hD
    rw [hD]
    simp [hD]

/-! ### Fetcher — `fetchYaml` (src/unnamed/part_000)

The network and the YAML parser are the environment: `net` maps a source
URL to the outcome of the no-cache `fetch` of that source (the
cache-busting query parameter and the `no-store` option only affect
which response comes back, so they are part of `net`), and `parse`
models `yamlLoad`, which either returns a document or throws. -/

/-- Outcome of one `fetch` call: the promise rejected with an error
message, or a response arrived with an HTTP status and a body. -/
inductive FetchNet where
  | thrown (msg : String)
  | response (status : Nat) (body : String)

/-- `resp.ok`: HTTP status in the 2xx range. -/
def respOk (status : Nat) : Bool := 200 ≤ status && status ≤ 299

def DEFAULT_SRC_LOCAL : String := "RVS_phase_rollup.yaml"

def DEFAULT_SRC_REMOTE : String :=
  "https://github.com/riscv-admin/riscv-sde/releases/latest/download/RVS_phase_rollup.yaml"

/-- `[ENV_YAML_URL, DEFAULT_SRC_LOCAL, DEFAULT_SRC_REMOTE].filter(Boolean)`:
the environment override followed by the two non-empty constant
defaults, keeping only non-empty entries. -/
def candidateSources (envYamlUrl : String) : List String :=
  [envYamlUrl, DEFAULT_SRC_LOCAL, DEFAULT_SRC_REMOTE].filter (fun s => s != "")

/-- The body of one iteration of the `for` loop of `fetchYaml`: fetch the
source, require a success status (`if(!resp.ok) throw new Error("HTTP " +
status)`), and parse the body as YAML; any exception becomes `.error`. -/
def attemptSource (net : String → FetchNet) (parse : String → Except String JVal)
    (src : String) : Except String JVal :=
  match net src with
  | .thrown e => .error e
  | .response status body =>
      if !respOk status then .error ("HTTP " ++ toString status)
      else parse body

/-- The loop of `fetchYaml`, threading `lastErr` (initially `null`). -/
def fetchYamlGo (net : String → FetchNet) (parse : String → Except String JVal) :
    List String → Option String → Except String JVal
  | [], lastErr => .error (lastErr.getD "Failed to load YAML")
  | src :: rest, _lastErr =>
      match attemptSource net parse src with
      | .error e => fetchYamlGo net parse rest (some e)
      | .ok doc => .ok doc

/-- `fetchYaml`: try each candidate source in order and return the first
successfully fetched and parsed document; if every candidate fails,
throw the last error. -/
def fetchYaml (net : String → FetchNet) (parse : String → Except String JVal)
    (sources : List String) : Except String JVal :=
  fetchYamlGo net parse sources none

/-- A candidate whose attempt ends in an error (network throw, bad
status, or parse failure). -/
def attemptFails (net : String → FetchNet) (parse : String → Except String JVal)
    (src : String) : Prop :=
  ∃ e, attemptSource net parse src = .error e

theorem fetchYamlGo_skip_failures (net : String → FetchNet)
    (parse : String → Except String JVal) (pre : List String)
    (h : ∀ t ∈ pre, attemptFails net parse t) (l : List String) (acc : Option String) :
    ∃ acc', fetchYamlGo net parse (pre ++ l) acc = fetchYamlGo net parse l acc' := by
  induction pre generalizing acc with
  | nil => exact ⟨acc, rfl⟩
  | cons s pre ih =>
      obtain ⟨e, he⟩ := h s (List.mem_cons_self s pre)
      have := ih (fun t ht => h t (List.mem_cons_of_mem s ht)) (some e)
      simpa [fetchYamlGo, he] using this

/-- Concrete three-source scenario: the override source throws, the local
source answers 404, the remote source answers 200 with a body that
parses. -/
def scenarioDoc : JVal :=
  .obj [("schema_version", .num 1), ("counts", .obj []), ("phases", .obj [])]

def scenarioOverrideUrl : String := "https://example.org/override.yaml"

def scenarioBody : String := "schema_version: 1\ncounts: \x7b\x7d\nphases: \x7b\x7d"

def scenarioNet : String → FetchNet := fun src =>
  if src = scenarioOverrideUrl then .thrown "TypeError: Failed to fetch"
  else if src = DEFAULT_SRC_LOCAL then .response 404 "Not Found"
  else .response 200 scenarioBody

def scenarioParse : String → Except String JVal := fun body =>
  if body = scenarioBody then .ok scenarioDoc else .error "YAMLException"

/-- C2: the fetcher returns the document of the first candidate whose
attempt succeeds after any prefix of failing candidates; when every
candidate fails it surfaces the last candidate's error; and in the
concrete throw / 404 / valid-YAML scenario it returns the third
source's document. -/
theorem fetchYaml_fallback_spec :
    (∀ net parse pre s rest d, (∀ t ∈ pre, attemptFails net parse t) →
       attemptSource net parse s = .ok d →
       fetchYaml net parse (pre ++ s :: rest) = .ok d) ∧
    (∀ net parse pre s e, (∀ t ∈ pre, attemptFails net parse t) →
       attemptSource net parse s = .error e →
       fetchYaml net parse (pre ++ [s]) = .error e) ∧
    fetchYaml scenarioNet scenarioParse (candidateSources scenarioOverrideUrl) =
      .ok scenarioDoc := by
  refine ⟨?_, ?_, ?_⟩
  · intro net parse pre s rest d hpre hs
    obtain ⟨acc', hacc⟩ := fetchYamlGo_skip_failures net parse pre hpre (s :: rest) none
    rw [fetchYaml, hacc, fetchYamlGo, hs]
  · intro net parse pre s e hpre hs
    obtain ⟨acc', hacc⟩ := fetchYamlGo_skip_failures net parse pre hpre [s] none
    rw [fetchYaml, hacc, fetchYamlGo, hs]
    rfl
  · rfl

/-- Witness for C2: the fallback theorem applied to the concrete
scenario sources. -/
theorem fetchYaml_fallback_spec_witness :
    fetchYaml scenarioNet scenarioParse
      [scenarioOverrideUrl, DEFAULT_SRC_LOCAL, DEFAULT_SRC_REMOTE] = .ok scenarioDoc := by
  refine fetchYaml_fallback_spec.1 scenarioNet scenarioParse
    [scenarioOverrideUrl, DEFAULT_SRC_LOCAL] DEFAULT_SRC_REMOTE [] scenarioDoc ?_ rfl
  intro t ht
  simp only [List.mem_cons, List.not_mem_nil, or_false] at ht
  rcases ht with h | h
  · exact ⟨"TypeError: Failed to fetch", by rw [h]; rfl⟩
  · exact ⟨"HTTP 404", by rw [h]; rfl⟩

/-! ### Refresh cycle — `loadAndRender` (src/unnamed/part_000)

The React `useState`/`useRef` cells touched by `loadAndRender` become an
explicit record, and the handler becomes a pure step function taking the
outcome of `fetchYaml` (success value or thrown error message) and the
current wall-clock instant. The toast auto-clear timeout is a real-time
effect and is not modeled; `toastMsg` records the message last set. -/

/-- Simple escaping for `JSON.stringify` string output (quote and
backslash; the dashboard documents' keys and scalars contain neither). -/
def jsonQuote (s : String) : String :=
  "\"" ++ ((s.replace "\\" "\\\\").replace "\"" "\\\"") ++ "\""

mutual

/-- `JSON.stringify` on the modeled values (insertion order, no spaces —
matching the JS call on plain parsed-YAML objects). -/
def jsonStringify : JVal → String
  | .null => "null"
  | .bool true => "true"
  | .bool false => "false"
  | .num n => toString n
  | .str s => jsonQuote s
  | .arr xs => "[" ++ String.intercalate "," (jsonStringifyElems xs) ++ "]"
  | .obj fs => "\x7b" ++ String.intercalate "," (jsonStringifyFields fs) ++ "\x7d"

def jsonStringifyElems : List JVal → List String
  | [] => []
  | x :: xs => jsonStringify x :: jsonStringifyElems xs

def jsonStringifyFields : List (String × JVal) → List String
  | [] => []
  | (k, v) :: fs => (jsonQuote k ++ ":" ++ jsonStringify v) :: jsonStringifyFields fs

end

/-- The state cells of the page controller read or written by
`loadAndRender`. `data` is what is displayed; `lastDataRef` is the
last-good snapshot kept across failures. -/
structure AppState where
  data : Option JVal
  error : String
  metaBase : String
  lastRefreshedAt : Option Nat
  lastSuccessAt : Option Nat
  lastGeneratedAt : Option JVal
  lastDataRef : Option JVal
  lastGenRef : Option JVal
  lastGeneratedRef : Option JVal
  toastMsg : String

/-- The initial state of the controller (`useState`/`useRef` initial
values; `metaBase` starts as "Loading..."). -/
def initialAppState : AppState :=
  { data := none, error := "", metaBase := "Loading...",
    lastRefreshedAt := none, lastSuccessAt := none, lastGeneratedAt := none,
    lastDataRef := none, lastGenRef := none, lastGeneratedRef := none,
    toastMsg := "" }

/-- The `catch` branch of `loadAndRender`: keep and re-display the last
good snapshot with a recoverable error when one exists, otherwise show
the hard failed-to-load state; either way clear `lastRefreshedAt`. -/
def onRefreshFailure (st : AppState) (msg : String) : AppState :=
  if st.lastDataRef.isSome then
    { st with
      error := "Error loading YAML. Using last successful data. (" ++ msg ++ ")",
      data := st.lastDataRef,
      lastGeneratedAt := st.lastGeneratedRef,
      lastRefreshedAt := none }
  else
    { st with
      error := "Error loading YAML: " ++ msg,
      metaBase := "Failed to load data.",
      lastRefreshedAt := none }

/-- `loadAndRender` as a pure step: `fetched` is the settled outcome of
`fetchYaml` (`.error` when it threw). The `try` block's own throws
(`"No data found."`, invalid shape) route to the same `catch`. -/
def loadAndRender (st : AppState) (fetched : Except String JVal) (now : Nat) : AppState :=
  match fetched with
  | .error e => onRefreshFailure st e
  | .ok nextData =>
    if !nextData.truthy then onRefreshFailure st "No data found."
    else
      let validation := validateYamlShape nextData
      if !validation.ok then
        onRefreshFailure st ("Invalid YAML: " ++ String.intercalate " " validation.errors)
      else
        let generatedAt : Option JVal :=
          if (nextData.jgetD "generated_at").truthy then some (nextData.jgetD "generated_at")
          else none
        let genKey : JVal :=
          if (nextData.jgetD "generated_at").truthy then nextData.jgetD "generated_at"
          else .str (jsonStringify (if (nextData.jgetD "counts").truthy
                                    then nextData.jgetD "counts" else .obj []))
        let toast : String :=
          match st.lastGenRef with
          | some k => if k.truthy && !(k.beq genKey) then "YAML updated" else st.toastMsg
          | none => st.toastMsg
        { st with
          data := some nextData,
          error := "",
          lastRefreshedAt := some now,
          lastSuccessAt := some now,
          lastGeneratedAt := generatedAt,
          lastGeneratedRef := generatedAt,
          metaBase := "",
          lastDataRef := some nextData,
          toastMsg := toast,
          lastGenRef := some genKey }

/-- The error message a refresh attempt fails with, if any: a fetch
throw, a falsy document, or a shape-validation failure. `none` means the
refresh succeeds. -/
def refreshFailureMsg : Except String JVal → Option String
  | .error e => some e
  | .ok nextData =>
    if !nextData.truthy then some "No data found."
    else
      let validation := validateYamlShape nextData
      if !validation.ok then
        some ("Invalid YAML: " ++ String.intercalate " " validation.errors)
      else none

theorem loadAndRender_of_failure (st : AppState) (f : Except String JVal) (now : Nat)
    (m : String) (h : refreshFailureMsg f = some m) :
    loadAndRender st f now = onRefreshFailure st m := by
  match f with
  | .error e =>
      simp only [refreshFailureMsg, Option.some.injEq] at h
      rw [loadAndRender, h]
  | .ok nextData =>
      rw [refreshFailureMsg] at h
      rw [loadAndRender]
      by_cases ht : nextData.truthy = true
      · simp only [ht, Bool.not_true, Bool.false_eq_true, if_false] at h ⊢
        by_cases hv : (validateYamlShape nextData).ok = true
        · simp [hv] at h
        · simp only [Bool.not_eq_true] at hv
          simp only [hv, Bool.not_false, if_true, Option.some.injEq] at h ⊢
          rw [h]
      · simp only [Bool.not_eq_true] at ht
        simp only [ht, Bool.not_false, if_true, Option.some.injEq] at h ⊢
        rw [h]

theorem loadAndRender_of_success (st : AppState) (d : JVal) (now : Nat)
    (h : refreshFailureMsg (.ok d) = none) :
    (loadAndRender st (.ok d) now).data = some d ∧
    (loadAndRender st (.ok d) now).lastDataRef = some d ∧
    (loadAndRender st (.ok d) now).error = "" := by
  rw [refreshFailureMsg] at h
  by_cases ht : d.truthy = true
  · simp only [ht, Bool.not_true, Bool.false_eq_true, if_false] at h
    by_cases hv : (validateYamlShape d).ok = true
    · rw [loadAndRender]
      simp [ht, hv]
    · simp only [Bool.not_eq_true] at hv
      simp [hv] at h
  · simp only [Bool.not_eq_true] at ht
    simp [ht] at h

/-- Displayed data and the last-good reference move together: this holds
initially and is preserved by every step. -/
theorem loadAndRender_data_eq_lastDataRef (st : AppState) (f : Except String JVal)
    (now : Nat) (hinv : st.data = st.lastDataRef) :
    (loadAndRender st f now).data = (loadAndRender st f now).lastDataRef := by
  rcases hm : refreshFailureMsg f with _ | m
  · match f with
    | .ok d =>
        obtain ⟨h1, h2, -⟩ := loadAndRender_of_success st d now hm
        rw [h1, h2]
    | .error e => simp [refreshFailureMsg] at hm
  · rw [loadAndRender_of_failure st f now m hm]
    rw [onRefreshFailure]
    by_cases hl : st.lastDataRef.isSome
    · simp [hl]
    · simp only [hl, Bool.false_eq_true, if_false]
      exact hinv

/-- C3: a failing refresh after a successful one keeps displaying the
previously loaded snapshot and surfaces the recoverable error message
annotated with the cause; a failing refresh with no prior good snapshot
(states where `data = lastDataRef`, which holds along every run from
`initialAppState`) leaves no data displayed and shows the hard
failed-to-load state. -/
theorem loadAndRender_continuity (st : AppState) (A : JVal)
    (f : Except String JVal) (m : String) (now1 now2 : Nat)
    (hA : refreshFailureMsg (.ok A) = none)
    (hf : refreshFailureMsg f = some m) :
    ((loadAndRender (loadAndRender st (.ok A) now1) f now2).data = some A ∧
     (loadAndRender (loadAndRender st (.ok A) now1) f now2).error =
       "Error loading YAML. Using last successful data. (" ++ m ++ ")") ∧
    (st.data = st.lastDataRef → st.lastDataRef = none →
     (loadAndRender st f now2).data = none ∧
     (loadAndRender st f now2).metaBase = "Failed to load data." ∧
     (loadAndRender st f now2).error = "Error loading YAML: " ++ m) := by
  constructor
  · obtain ⟨-, h2, -⟩ := loadAndRender_of_success st A now1 hA
    rw [loadAndRender_of_failure _ f now2 m hf, onRefreshFailure]
    simp [h2]
  · intro hinv hnone
    rw [loadAndRender_of_failure st f now2 m hf, onRefreshFailure, hnone]
    exact ⟨hinv.trans hnone, rfl, rfl⟩

/-- Witness for C3: a concrete run — a valid snapshot loads, the next
tick's fetch throws — keeps the snapshot and shows the annotated
recoverable error; and a throw from the initial state shows the hard
failure state. -/
theorem loadAndRender_continuity_witness :
    ((loadAndRender (loadAndRender initialAppState (.ok scenarioDoc) 0)
        (.error "HTTP 500") 1).data = some scenarioDoc ∧
     (loadAndRender (loadAndRender initialAppState (.ok scenarioDoc) 0)
        (.error "HTTP 500") 1).error =
       "Error loading YAML. Using last successful data. (HTTP 500)") ∧
    ((loadAndRender initialAppState (.error "HTTP 500") 1).data = none ∧
     (loadAndRender initialAppState (.error "HTTP 500") 1).metaBase =
       "Failed to load data." ∧
     (loadAndRender initialAppState (.error "HTTP 500") 1).error =
       "Error loading YAML: HTTP 500") := by
  have h := loadAndRender_continuity initialAppState scenarioDoc
    (.error "HTTP 500") "HTTP 500" 0 1 rfl rfl
  exact ⟨h.1, h.2 rfl rfl⟩

/-! ### Typed document model for the filter/search pipeline

The filter engine reads a fixed set of fields off each issue. String
fields are modeled as `String` with `""` for an absent value, matching
the source's uniformly defaulted accesses (`issue.key || ""`); the two
classification holders keep their nested `.value` shape because the
source tests each level for nullishness separately. `String.toLower`,
`String.toUpper` and `String.trim` model the JS `toLowerCase`,
`toUpperCase` and `trim` (the documents are ASCII, where they agree). -/

/-- `s.toLowerCase()` (character-wise; the dashboard strings are ASCII,
where JS and `Char.toLower` agree). -/
def jsToLower (s : String) : String := String.mk (s.data.map Char.toLower)

/-- `s.toUpperCase()` (character-wise, ASCII). -/
def jsToUpper (s : String) : String := String.mk (s.data.map Char.toUpper)

/-- `s.trim()`: strip leading and trailing whitespace. -/
def jsTrim (s : String) : String :=
  String.mk (((s.data.dropWhile Char.isWhitespace).reverse.dropWhile
    Char.isWhitespace).reverse)

structure ValueField where
  value : Option String
  deriving DecidableEq

structure LinkedIssue where
  key : String
  summary : String
  relationship : String
  direction : String
  deriving DecidableEq

structure Subtask where
  key : String
  summary : String
  status : String
  type : String
  is_approval : Option Bool
  deriving DecidableEq

structure Issue where
  key : String
  summary : String
  phase : String
  days_in_phase : Option Int
  isa_or_non_isa : Option ValueField
  is_fast_track : Option ValueField
  github : Option String
  subtasks : List Subtask
  linked_issues : List LinkedIssue
  deriving DecidableEq

/-- Top-level snapshot. `extra` holds any unknown top-level fields;
`Object.assign({}, data, {phases})` copies them all and overrides only
`phases`, which the record update below mirrors. -/
@[ext]
structure Snapshot where
  schema_version : JVal
  generated_at : JVal
  counts : JVal
  phases : List (String × List Issue)
  extra : List (String × JVal)

def PHASE_ORDER : List String :=
  ["Inception", "Planning", "Development", "Stabilization", "Freeze",
   "Ratification-Ready", "Publication", "Ratified", "Cancelled"]

/-- `issueIsaValue`: the trimmed upper-cased `isa_or_non_isa.value`, or
`""` when the holder, the value, or the trimmed source string is
falsy/absent. -/
def issueIsaValue (issue : Issue) : String :=
  match issue.isa_or_non_isa with
  | none => ""
  | some f =>
    match f.value with
    | none => ""
    | some raw => if raw = "" then "" else jsToUpper (jsTrim raw)

/-- `issueTrackValue`: "Fast-Track" when the trimmed lower-cased
`is_fast_track.value` is "yes", "Regular" when "no", `""` otherwise. -/
def issueTrackValue (issue : Issue) : String :=
  let v : String :=
    match issue.is_fast_track with
    | none => ""
    | some f =>
      match f.value with
      | none => ""
      | some raw => jsToLower (jsTrim raw)
  if v = "yes" then "Fast-Track" else if v = "no" then "Regular" else ""

/-- `hay.includes(q)`: substring containment. -/
def strContains (hay q : String) : Bool :=
  hay.toList.tails.any (fun t => q.toList.isPrefixOf t)

/-- `matchesQuery(q, issue, sub)` (src/unnamed/part_003): join the
issue's key/summary/phase, every linked issue's four fields, and — when
a subtask is given — its key/summary/status/type with spaces, lower-case
the result and test substring containment of the (already lower-cased)
query. -/
def matchesQuery (q : String) (issue : Issue) (sub : Option Subtask) : Bool :=
  if q = "" then true
  else
    let hay := [issue.key, issue.summary, issue.phase]
      ++ issue.linked_issues.foldr
           (fun li acc => li.key :: li.summary :: li.relationship :: li.direction :: acc) []
      ++ (match sub with
          | some st => [st.key, st.summary, st.status, st.type]
          | none => [])
    strContains (jsToLower (String.intercalate " " hay)) q

/-- Truthiness of a nullable string (the filters are `null` or a
non-empty label). -/
def strTruthy : Option String → Bool
  | none => false
  | some s => s != ""

/-- `issueMatchesFilters(issue, isaFilter, trackFilter)`: when a filter
is set, the issue's derived classification must equal it. -/
def issueMatchesFilters (issue : Issue) (isaFilter trackFilter : Option String) : Bool :=
  if strTruthy isaFilter && (issueIsaValue issue != isaFilter.getD "") then false
  else if strTruthy trackFilter && (issueTrackValue issue != trackFilter.getD "") then false
  else true

/-- The per-issue predicate of `filteredData`'s `allIssues.filter`:
textual match (empty query matches everything) and both categorical
filters. -/
def filterIssue (q : String) (isaFilter trackFilter : Option String) (issue : Issue) : Bool :=
  let matchesText := q = "" || matchesQuery q issue none
    || issue.subtasks.any (fun st => matchesQuery q issue (some st))
  matchesText && issueMatchesFilters issue isaFilter trackFilter

/-- The body of the `filteredData` memo for a present snapshot: for each
phase of the fixed enumeration, filter that phase's issues (missing
phases default to `[]`), and rebuild the snapshot with only `phases`
replaced (`Object.assign({}, data, {phases: nextPhases})`). -/
def filterSnap (d : Snapshot) (searchQuery : String)
    (isaFilter trackFilter : Option String) : Snapshot :=
  let q := jsToLower (jsTrim searchQuery)
  let nextPhases := PHASE_ORDER.map (fun phase =>
    (phase, ((d.phases.lookup phase).getD []).filter (filterIssue q isaFilter trackFilter)))
  { d with phases := nextPhases }

/-- `filteredData`: `null` snapshots pass through as `null`. -/
def filteredData (data : Option Snapshot) (searchQuery : String)
    (isaFilter trackFilter : Option String) : Option Snapshot :=
  match data with
  | none => none
  | some d => some (filterSnap d searchQuery isaFilter trackFilter)

theorem lookup_map_key {β : Type} (l : List String) (g : String → β) (p : String)
    (hp : p ∈ l) : (l.map (fun x => (x, g x))).lookup p = some (g p) := by
  induction l with
  | nil => cases hp
  | cons x xs ih =>
    by_cases h : p = x
    · subst h
      simp [List.lookup]
    · have hx : (p == x) = false := beq_eq_false_iff_ne.mpr h
      rcases List.mem_cons.mp hp with h' | h'
      · exact absurd h' h
      · simpa [List.lookup, hx] using ih h'

theorem lookup_map_key_none {β : Type} (l : List String) (g : String → β) (p : String)
    (hp : p ∉ l) : (l.map (fun x => (x, g x))).lookup p = none := by
  induction l with
  | nil => rfl
  | cons x xs ih =>
    have h : p ≠ x := fun he => hp (he ▸ List.mem_cons_self x xs)
    have hx : (p == x) = false := beq_eq_false_iff_ne.mpr h
    simpa [List.lookup, hx] using ih (fun h' => hp (List.mem_cons_of_mem x h'))

theorem lookup_filterSnap (d : Snapshot) (searchQuery : String)
    (isaFilter trackFilter : Option String) (p : String) (hp : p ∈ PHASE_ORDER) :
    (filterSnap d searchQuery isaFilter trackFilter).phases.lookup p =
      some (((d.phases.lookup p).getD []).filter
        (filterIssue (jsToLower (jsTrim searchQuery)) isaFilter trackFilter)) :=
  lookup_map_key PHASE_ORDER
    (fun phase => ((d.phases.lookup phase).getD []).filter
      (filterIssue (jsToLower (jsTrim searchQuery)) isaFilter trackFilter)) p hp

theorem lookup_filterSnap_none (d : Snapshot) (searchQuery : String)
    (isaFilter trackFilter : Option String) (p : String) (hp : p ∉ PHASE_ORDER) :
    (filterSnap d searchQuery isaFilter trackFilter).phases.lookup p = none :=
  lookup_map_key_none PHASE_ORDER
    (fun phase => ((d.phases.lookup phase).getD []).filter
      (filterIssue (jsToLower (jsTrim searchQuery)) isaFilter trackFilter)) p hp

theorem mem_keys_of_lookup {β : Type} (l : List (String × β)) (p : String) (v : β)
    (h : l.lookup p = some v) : ∃ pr ∈ l, pr.1 = p := by
  induction l with
  | nil => cases h
  | cons x xs ih =>
    obtain ⟨k, w⟩ := x
    by_cases he : p = k
    · exact ⟨(k, w), List.mem_cons_self _ _, he.symm⟩
    · have hx : (p == k) = false := beq_eq_false_iff_ne.mpr he
      simp only [List.lookup, hx] at h
      obtain ⟨pr, hm, hpr⟩ := ih h
      exact ⟨pr, List.mem_cons_of_mem _ hm, hpr⟩

/-- With an empty query and no categorical filters the per-issue
predicate accepts every issue. -/
theorem filterIssue_trivial (issue : Issue) :
    filterIssue (jsToLower (jsTrim "")) none none issue = true := by
  rfl

/-- C4: filtering with an empty query and no ISA or track filter leaves
every phase's issue list unchanged, in original order (for snapshots
whose phase keys are drawn from the fixed enumeration, which is the
documented shape of the document). -/
theorem filterSnap_empty_query_id (d : Snapshot)
    (hkeys : ∀ pr ∈ d.phases, pr.1 ∈ PHASE_ORDER)
    (p : String) (issues : List Issue) (hp : d.phases.lookup p = some issues) :
    (filterSnap d "" none none).phases.lookup p = some issues := by
  obtain ⟨pr, hmem, hfst⟩ := mem_keys_of_lookup d.phases p issues hp
  have hpo : p ∈ PHASE_ORDER := hfst ▸ hkeys pr hmem
  rw [lookup_filterSnap d "" none none p hpo, hp]
  simp only [Option.getD_some, Option.some.injEq]
  exact List.filter_eq_self.mpr (fun a _ => filterIssue_trivial a)

/-- Witness snapshot: one issue in Development, one in Planning. -/
def issueDevA : Issue :=
  { key := "RVS-101", summary := "UART spec draft", phase := "Development",
    days_in_phase := some 12, isa_or_non_isa := some ⟨some "ISA"⟩,
    is_fast_track := some ⟨some "no"⟩, github := none,
    subtasks := [{ key := "RVS-102", summary := "[Development] Write draft",
                   status := "In Progress", type := "Task", is_approval := none }],
    linked_issues := [] }

def issuePlanB : Issue :=
  { key := "RVS-201", summary := "Debug module plan", phase := "Planning",
    days_in_phase := none, isa_or_non_isa := some ⟨some "NON-ISA"⟩,
    is_fast_track := some ⟨some "yes"⟩, github := some "https://github.com/riscv/x",
    subtasks := [], linked_issues := [] }

def witnessSnap : Snapshot :=
  { schema_version := .num 1, generated_at := .str "2026-01-01T00:00:00Z",
    counts := .obj [("Development", .num 1), ("Planning", .num 1)],
    phases := [("Development", [issueDevA]), ("Planning", [issuePlanB])],
    extra := [("source", .str "jira")] }

/-- Witness for C4: the identity filter on the concrete snapshot. -/
theorem filterSnap_empty_query_id_witness :
    (filterSnap witnessSnap "" none none).phases.lookup "Development" =
      some [issueDevA] :=
  filterSnap_empty_query_id witnessSnap (by decide) "Development" [issueDevA] (by decide)

/-- C7: filtering an already-filtered snapshot with the same query and
filters returns it unchanged. -/
theorem filteredData_idempotent (data : Option Snapshot) (searchQuery : String)
    (isaFilter trackFilter : Option String) :
    filteredData (filteredData data searchQuery isaFilter trackFilter)
        searchQuery isaFilter trackFilter =
      filteredData data searchQuery isaFilter trackFilter := by
  cases data with
  | none => rfl
  | some d =>
    simp only [filteredData, Option.some.injEq]
    show filterSnap (filterSnap d searchQuery isaFilter trackFilter)
        searchQuery isaFilter trackFilter =
      filterSnap d searchQuery isaFilter trackFilter
    have hphases : ∀ p ∈ PHASE_ORDER,
        ((((filterSnap d searchQuery isaFilter trackFilter).phases.lookup p).getD []).filter
          (filterIssue (jsToLower (jsTrim searchQuery)) isaFilter trackFilter)) =
        (((d.phases.lookup p).getD []).filter
          (filterIssue (jsToLower (jsTrim searchQuery)) isaFilter trackFilter)) := by
      intro p hp
      rw [lookup_filterSnap d searchQuery isaFilter trackFilter p hp]
      simp only [Option.getD_some]
      exact List.filter_eq_self.mpr (fun a ha => List.of_mem_filter ha)
    refine Snapshot.ext rfl rfl rfl ?_ rfl
    show PHASE_ORDER.map (fun phase => (phase,
        (((filterSnap d searchQuery isaFilter trackFilter).phases.lookup phase).getD []).filter
          (filterIssue (jsToLower (jsTrim searchQuery)) isaFilter trackFilter))) =
      PHASE_ORDER.map (fun phase => (phase,
        ((d.phases.lookup phase).getD []).filter
          (filterIssue (jsToLower (jsTrim searchQuery)) isaFilter trackFilter)))
    exact List.map_congr_left (fun p hp => by rw [hphases p hp])

/-- C10: the filter engine rebuilds only `phases`; every other
top-level field — `schema_version`, `generated_at`, `counts`, and all
unknown fields (`extra`) — is the input's (and, the embedding being
pure, the input snapshot itself is untouched). -/
theorem filterSnap_frame (d : Snapshot) (searchQuery : String)
    (isaFilter trackFilter : Option String) :
    (filterSnap d searchQuery isaFilter trackFilter).schema_version = d.schema_version ∧
    (filterSnap d searchQuery isaFilter trackFilter).generated_at = d.generated_at ∧
    (filterSnap d searchQuery isaFilter trackFilter).counts = d.counts ∧
    (filterSnap d searchQuery isaFilter trackFilter).extra = d.extra :=
  ⟨rfl, rfl, rfl, rfl⟩

/-- An issue whose raw ISA value has surrounding whitespace: it passes
the "ISA" filter (which compares the trimmed upper-cased value) while
its merely upper-cased raw value is " ISA ". -/
def issuePaddedIsa : Issue :=
  { key := "RVS-301", summary := "Padded ISA value", phase := "Development",
    days_in_phase := none, isa_or_non_isa := some ⟨some " isa "⟩,
    is_fast_track := none, github := none, subtasks := [], linked_issues := [] }

def paddedSnap : Snapshot :=
  { schema_version := .num 1, generated_at := .null, counts := .obj [],
    phases := [("Development", [issuePaddedIsa])], extra := [] }

/-- Counterexample to C6 as stated: with the ISA filter set to "ISA",
the filtered Development list contains `issuePaddedIsa`, whose
upper-cased (untrimmed) `isa_or_non_isa.value` (`jsToUpper`) is
" ISA ", not "ISA". -/
theorem filterSnap_isa_uppercase_cex :
    issuePaddedIsa ∈
      (((filterSnap paddedSnap "" (some "ISA") none).phases.lookup "Development").getD []) ∧
    issuePaddedIsa.isa_or_non_isa = some ⟨some " isa "⟩ ∧
    jsToUpper " isa " ≠ "ISA" := by
  refine ⟨?_, rfl, by decide⟩
  decide

/-- C6 (amended): with the ISA filter set to "ISA", every issue in every
filtered phase list has trimmed upper-cased `isa_or_non_isa.value`
(`issueIsaValue`) equal to "ISA". -/
theorem filterSnap_isa_filter (d : Snapshot) (searchQuery : String)
    (trackFilter : Option String) (p : String) (issue : Issue)
    (h : issue ∈
      (((filterSnap d searchQuery (some "ISA") trackFilter).phases.lookup p).getD [])) :
    issueIsaValue issue = "ISA" := by
  by_cases hp : p ∈ PHASE_ORDER
  · rw [lookup_filterSnap d searchQuery (some "ISA") trackFilter p hp] at h
    simp only [Option.getD_some] at h
    have hpred := List.of_mem_filter h
    rw [filterIssue] at hpred
    rw [Bool.and_eq_true] at hpred
    have hfil : issueMatchesFilters issue (some "ISA") trackFilter = true := hpred.2
    rw [issueMatchesFilters] at hfil
    by_cases hv : issueIsaValue issue = "ISA"
    · exact hv
    · exfalso
      have : (strTruthy (some "ISA") && (issueIsaValue issue != (some "ISA").getD "")) = true := by
        simp [strTruthy, hv]
      rw [if_pos this] at hfil
      exact Bool.false_ne_true hfil
  · rw [lookup_filterSnap_none d searchQuery (some "ISA") trackFilter p hp] at h
    cases h

/-- Witness for C6 (amended): the padded issue is in the filtered list
and its derived ISA value is "ISA". -/
theorem filterSnap_isa_filter_witness : issueIsaValue issuePaddedIsa = "ISA" :=
  filterSnap_isa_filter paddedSnap "" none "Development" issuePaddedIsa (by decide)

/-! ### Status configuration and classifier
(src/unnamed/part_001 constants, src/unnamed/part_004 `normalizeStatusConfig`
and `statusClass`) -/

def DEFAULT_doneStatuses : List String :=
  ["done", "approved", "not required to freeze", "ar review not require",
   "ar review not required", "approval not required", "arc review not required"]

def DEFAULT_notStartedStatuses : List String :=
  ["not started", "to do", "open", "backlog"]

/-- A status configuration object; `Option` fields model the
`Array.isArray` presence test of `normalizeStatusConfig`. -/
structure StatusConfig where
  doneStatuses : Option (List String)
  notStartedStatuses : Option (List String)

def DEFAULT_STATUS_CONFIG : StatusConfig :=
  { doneStatuses := some DEFAULT_doneStatuses,
    notStartedStatuses := some DEFAULT_notStartedStatuses }

structure NormStatusConfig where
  doneStatuses : List String
  notStartedStatuses : List String

/-- `normalizeStatusConfig(cfg)`: each configured array when present,
else the default; both lower-cased. -/
def normalizeStatusConfig (cfg : Option StatusConfig) : NormStatusConfig :=
  let doneStatuses := match cfg with
    | some c => c.doneStatuses.getD DEFAULT_doneStatuses
    | none => DEFAULT_doneStatuses
  let notStartedStatuses := match cfg with
    | some c => c.notStartedStatuses.getD DEFAULT_notStartedStatuses
    | none => DEFAULT_notStartedStatuses
  { doneStatuses := doneStatuses.map jsToLower,
    notStartedStatuses := notStartedStatuses.map jsToLower }

/-- `statusClass(status, statusConfig)`: a falsy (empty) status is
neutral; otherwise classify the lower-cased status — done first, then
not-started, else in-progress. -/
def statusClass (status : String) (statusConfig : Option StatusConfig) : String :=
  if status = "" then "status-neutral"
  else
    let s := jsToLower status
    let cfg := normalizeStatusConfig statusConfig
    if s ∈ cfg.doneStatuses then "status-done"
    else if s ∈ cfg.notStartedStatuses then "status-not-started"
    else "status-in-progress"

/-- Counterexample to C5 as stated: the empty status is in neither
configured set of the default configuration, yet the classifier returns
the separate neutral class, not in-progress. -/
theorem statusClass_empty_status_cex :
    statusClass "" (some DEFAULT_STATUS_CONFIG) = "status-neutral" ∧
    "status-neutral" ≠ "status-in-progress" ∧
    jsToLower "" ∉ (normalizeStatusConfig (some DEFAULT_STATUS_CONFIG)).doneStatuses ∧
    jsToLower "" ∉ (normalizeStatusConfig (some DEFAULT_STATUS_CONFIG)).notStartedStatuses := by
  decide

/-- C5 (amended): for every non-empty status, the classifier returns
done exactly when the lower-cased status is in the configured done set;
not-started exactly when it is not in the done set but in the
not-started set; in-progress exactly when it is in neither; and the
empty status is classified neutral. Concretely, under the default
configuration "Done" is done, "To Do" is not-started and "Blocked" is
in-progress. -/
theorem statusClass_spec (status : String) (cfg : Option StatusConfig)
    (h : status ≠ "") :
    (statusClass status cfg = "status-done" ↔
      jsToLower status ∈ (normalizeStatusConfig cfg).doneStatuses) ∧
    (statusClass status cfg = "status-not-started" ↔
      (jsToLower status ∉ (normalizeStatusConfig cfg).doneStatuses ∧
       jsToLower status ∈ (normalizeStatusConfig cfg).notStartedStatuses)) ∧
    (statusClass status cfg = "status-in-progress" ↔
      (jsToLower status ∉ (normalizeStatusConfig cfg).doneStatuses ∧
       jsToLower status ∉ (normalizeStatusConfig cfg).notStartedStatuses)) ∧
    statusClass "Done" (some DEFAULT_STATUS_CONFIG) = "status-done" ∧
    statusClass "To Do" (some DEFAULT_STATUS_CONFIG) = "status-not-started" ∧
    statusClass "Blocked" (some DEFAULT_STATUS_CONFIG) = "status-in-progress" := by
  refine ⟨?_, ?_, ?_, by decide, by decide, by decide⟩ <;>
  · rw [statusClass, if_neg h]
    by_cases h1 : jsToLower status ∈ (normalizeStatusConfig cfg).doneStatuses
    · simp [h1]
    · by_cases h2 : jsToLower status ∈ (normalizeStatusConfig cfg).notStartedStatuses
      · simp [h1, h2]
      · simp [h1, h2]

/-- Witness for C5 (amended): the general clause applied at "Blocked"
under the default configuration. -/
theorem statusClass_spec_witness :
    statusClass "Blocked" (some DEFAULT_STATUS_CONFIG) = "status-in-progress" :=
  ((statusClass_spec "Blocked" (some DEFAULT_STATUS_CONFIG)
    (by decide)).2.2.1).mpr (by decide)

/-! ### Status counting — `countByStatus` (src/unnamed/part_004) -/

structure CountOpts where
  doneStatuses : Option (List String)
  notStartedStatuses : Option (List String)

structure StatusCounts where
  done : Nat
  total : Nat
  notStarted : Nat
  inProgress : Int
  pct : Nat
  deriving DecidableEq

/-- The literal not-started fallback list inlined in `countByStatus`. -/
def NOT_STARTED_LITERALS : List String := ["not started", "to do", "open", "backlog"]

/-- The counting `for` loop of `countByStatus`, threading the two
mutable counters. -/
def countLoop (doneStatuses notStartedStatuses : List String) :
    List Subtask → Nat × Nat → Nat × Nat
  | [], acc => acc
  | item :: rest, (done, notStarted) =>
      let status := jsToLower item.status
      if status = "done" || doneStatuses.contains status then
        countLoop doneStatuses notStartedStatuses rest (done + 1, notStarted)
      else if notStartedStatuses.contains status
          || NOT_STARTED_LITERALS.contains status then
        countLoop doneStatuses notStartedStatuses rest (done, notStarted + 1)
      else countLoop doneStatuses notStartedStatuses rest (done, notStarted)

/-- `countByStatus(items, opts)`: count done (literal "done" or the
option set) and not-started (the option set or the literal fallbacks);
`inProgress = Math.max(0, total - done - notStarted)`; `pct` is the
rounded done percentage, 0 for an empty list. `Math.round(x)` is
`⌊x + 1/2⌋`, modeled exactly on rationals as
`(200*done + total) / (2*total)` in integer division (the JS float
computation agrees on the document's small counts). -/
def countByStatus (items : List Subtask) (opts : Option CountOpts) : StatusCounts :=
  let doneStatuses := (match opts with
    | some o => o.doneStatuses.getD []
    | none => []).map jsToLower
  let notStartedStatuses := (match opts with
    | some o => o.notStartedStatuses.getD []
    | none => []).map jsToLower
  let c := countLoop doneStatuses notStartedStatuses items (0, 0)
  let total := items.length
  let inProgress : Int := max 0 ((total : Int) - c.1 - c.2)
  let pct : Nat := if total ≠ 0 then (200 * c.1 + total) / (2 * total) else 0
  { done := c.1, total := total, notStarted := c.2,
    inProgress := inProgress, pct := pct }

theorem countLoop_le (ds ns : List String) (items : List Subtask) :
    ∀ a b, (countLoop ds ns items (a, b)).1 + (countLoop ds ns items (a, b)).2 ≤
      a + b + items.length := by
  induction items with
  | nil => intro a b; simp [countLoop]
  | cons item rest ih =>
    intro a b
    simp only [countLoop, List.length_cons]
    split
    · have := ih (a + 1) b; omega
    · split
      · have := ih a (b + 1); omega
      · have := ih a b; omega

/-- C9: the counts satisfy `done + notStarted + inProgress = total`,
`total` is the list length, all counts are non-negative, `pct` is
between 0 and 100, and `pct = 0` on the empty list. -/
theorem countByStatus_invariants (items : List Subtask) (opts : Option CountOpts) :
    ((countByStatus items opts).done : Int) + (countByStatus items opts).notStarted +
        (countByStatus items opts).inProgress = (countByStatus items opts).total ∧
    (countByStatus items opts).total = items.length ∧
    0 ≤ (countByStatus items opts).inProgress ∧
    (countByStatus items opts).pct ≤ 100 ∧
    (items = [] → (countByStatus items opts).pct = 0) := by
  have hle := countLoop_le
    ((match opts with | some o => o.doneStatuses.getD [] | none => []).map jsToLower)
    ((match opts with | some o => o.notStartedStatuses.getD [] | none => []).map jsToLower)
    items 0 0
  set dsl := (match opts with | some o => o.doneStatuses.getD [] | none => []).map jsToLower
  set nsl := (match opts with | some o => o.notStartedStatuses.getD [] | none => []).map jsToLower
  have hdone : (countByStatus items opts).done = (countLoop dsl nsl items (0, 0)).1 := rfl
  have hns : (countByStatus items opts).notStarted = (countLoop dsl nsl items (0, 0)).2 := rfl
  have htot : (countByStatus items opts).total = items.length := rfl
  have hip : (countByStatus items opts).inProgress =
      max 0 ((items.length : Int) - (countLoop dsl nsl items (0, 0)).1
        - (countLoop dsl nsl items (0, 0)).2) := rfl
  have hsum : (countLoop dsl nsl items (0, 0)).1 + (countLoop dsl nsl items (0, 0)).2 ≤
      items.length := by simpa using hle
  have hmax : (countByStatus items opts).inProgress =
      (items.length : Int) - (countLoop dsl nsl items (0, 0)).1
        - (countLoop dsl nsl items (0, 0)).2 := by
    rw [hip]
    exact max_eq_right (by omega)
  refine ⟨?_, htot, ?_, ?_, ?_⟩
  · rw [hdone, hns, hmax, htot]; omega
  · rw [hmax]; omega
  · by_cases h0 : items.length = 0
    · have : (countByStatus items opts).pct = 0 := by
        show (if items.length ≠ 0 then _ else 0) = 0
        simp [h0]
      omega
    · have hpct : (countByStatus items opts).pct =
          (200 * (countLoop dsl nsl items (0, 0)).1 + items.length) /
            (2 * items.length) := by
        show (if items.length ≠ 0 then _ else 0) = _
        simp [h0]
      rw [hpct]
      have hd : (countLoop dsl nsl items (0, 0)).1 ≤ items.length := by omega
      have hlt : 200 * (countLoop dsl nsl items (0, 0)).1 + items.length <
          101 * (2 * items.length) := by omega
      have := (Nat.div_lt_iff_lt_mul (by omega : 0 < 2 * items.length)).mpr
        (by omega : 200 * (countLoop dsl nsl items (0, 0)).1 + items.length <
          101 * (2 * items.length))
      omega
  · intro he
    subst he
    rfl

/-- Witness for C9: the empty-list percentage clause at a concrete
input. -/
theorem countByStatus_invariants_witness : (countByStatus [] none).pct = 0 :=
  (countByStatus_invariants [] none).2.2.2.2 rfl

/-! ### Approvals — `phaseFromSummary` (src/src/utils/phase.js),
`firstPendingApproval` (src/unnamed/part_004), and the `IssueCard`
pipeline (src/src/components/IssueCard.jsx) -/

def PHASE_ALIASES : List (String × Option String) :=
  [("plan", some "Planning"), ("ratification ready", some "Ratification-Ready"),
   ("ratification-ready", some "Ratification-Ready"),
   ("fast-track", none), ("ecosystem", none)]

/-- `PHASE_LOOKUP[label] || null`: the phase of the fixed enumeration
whose lower-cased name equals the label, if any. -/
def PHASE_LOOKUP (label : String) : Option String :=
  PHASE_ORDER.find? (fun ph => jsToLower ph == label)

/-- The regex `/^\s*\[([^\]]+)\]/`: skip leading whitespace, require an
opening bracket, capture one or more non-bracket characters up to a
closing bracket. -/
def extractBracketLabel (summary : String) : Option String :=
  match summary.data.dropWhile Char.isWhitespace with
  | '[' :: rest =>
      let label := rest.takeWhile (fun c => c != ']')
      let rest' := rest.dropWhile (fun c => c != ']')
      if label.isEmpty || rest'.isEmpty then none else some (String.mk label)
  | _ => none

/-- `phaseFromSummary(summary)`: extract the bracketed label, trim and
lower-case it, map through the alias table (whose entries may be null),
else look it up in the fixed enumeration. -/
def phaseFromSummary (summary : String) : Option String :=
  match extractBracketLabel summary with
  | none => none
  | some label =>
    let l := jsToLower (jsTrim label)
    match PHASE_ALIASES.lookup l with
    | some v => v
    | none => PHASE_LOOKUP l

def APPROVAL_TYPES : List String := ["BoD Approval", "Approval", "ARC Review"]

/-- `isApproval(sub)`: the explicit flag is `true`, or the type is one
of the approval types. -/
def isApprovalSub (sub : Subtask) : Bool :=
  sub.is_approval == some true || APPROVAL_TYPES.contains sub.type

/-- `IssueCard`'s `phaseTasks`: the subtasks whose bracketed summary
phase equals the issue's current phase. -/
def phaseTasks (issue : Issue) : List Subtask :=
  issue.subtasks.filter (fun st => phaseFromSummary st.summary == some issue.phase)

/-- The approval-specific done set hard-coded in `IssueCard`. -/
def approvalDoneStatuses : List String :=
  ["approved", "approval not required", "ar review not required",
   "arc review not required"]

/-- `IssueCard`'s `approvalTasks`: the approval-type subtasks of the
issue's current phase, in list order. -/
def approvalTasks (issue : Issue) : List Subtask :=
  (phaseTasks issue).filter isApprovalSub

/-- `firstPendingApproval(approvals, doneStatuses)`: the first item
whose lower-cased status is neither the literal "done" nor in the
lower-cased done set. -/
def firstPendingApproval (approvals : List Subtask)
    (doneStatuses : List String) : Option Subtask :=
  let doneSet := doneStatuses.map jsToLower
  approvals.find? (fun item =>
    (jsToLower item.status != "done") && !(doneSet.contains (jsToLower item.status)))

/-- The next pending approval shown on an issue's card. -/
def nextApproval (issue : Issue) : Option Subtask :=
  firstPendingApproval (approvalTasks issue) approvalDoneStatuses

def cexSt1 : Subtask :=
  { key := "RVS-401", summary := "[Development] BoD sign-off",
    status := "Done", type := "BoD Approval", is_approval := none }

def cexSt2 : Subtask :=
  { key := "RVS-402", summary := "[Development] ARC sign-off",
    status := "To Do", type := "ARC Review", is_approval := none }

def cexApprovalIssue : Issue :=
  { key := "RVS-400", summary := "Vector spec", phase := "Development",
    days_in_phase := none, isa_or_non_isa := none, is_fast_track := none,
    github := none, subtasks := [cexSt1, cexSt2], linked_issues := [] }

/-- Counterexample to C8 as stated: the first approval subtask has
status "Done", which is not in the approval-specific done set, so by the
claim it would be the next pending approval — but the code skips the
literal "done" and shows the second subtask instead. -/
theorem nextApproval_done_literal_cex :
    approvalTasks cexApprovalIssue = [cexSt1, cexSt2] ∧
    jsToLower cexSt1.status ∉ approvalDoneStatuses.map jsToLower ∧
    nextApproval cexApprovalIssue = some cexSt2 ∧
    cexSt2 ≠ cexSt1 := by
  decide

theorem find?_split {α : Type} (p : α → Bool) (l : List α) (a : α)
    (h : l.find? p = some a) :
    ∃ pre post, l = pre ++ a :: post ∧ (∀ x ∈ pre, p x = false) ∧ p a = true := by
  induction l with
  | nil => cases h
  | cons x xs ih =>
    by_cases hx : p x = true
    · rw [List.find?_cons_of_pos _ hx] at h
      obtain rfl : x = a := by injection h
      exact ⟨[], xs, rfl, by simp, hx⟩
    · have hx' : p x = false := by revert hx; cases p x <;> simp
      rw [List.find?_cons_of_neg _ hx] at h
      obtain ⟨pre, post, hsplit, hpre, hpa⟩ := ih h
      refine ⟨x :: pre, post, by rw [hsplit, List.cons_append], ?_, hpa⟩
      intro y hy
      rcases List.mem_cons.mp hy with rfl | hy
      · exact hx'
      · exact hpre y hy

/-- The pending-approval test of `firstPendingApproval` is false exactly
when the lower-cased status is "done" or in the approval done set. -/
theorem pendingTest_eq_false_iff (st : Subtask) :
    ((jsToLower st.status != "done") &&
      !((approvalDoneStatuses.map jsToLower).contains (jsToLower st.status))) = false ↔
    (jsToLower st.status = "done" ∨
      jsToLower st.status ∈ approvalDoneStatuses.map jsToLower) := by
  simp [List.contains, List.elem_iff]
  tauto

/-- C8 (amended): the next pending approval shown is the first
approval-type subtask of the issue's current phase, in list order,
whose lower-cased status is neither the literal "done" nor in the
approval-specific done set; when every such subtask is "done" or in
that set, none is shown. -/
theorem nextApproval_spec (issue : Issue) :
    (∀ st, nextApproval issue = some st →
      ∃ pre post, approvalTasks issue = pre ++ st :: post ∧
        (∀ t ∈ pre, jsToLower t.status = "done" ∨
          jsToLower t.status ∈ approvalDoneStatuses.map jsToLower) ∧
        ¬(jsToLower st.status = "done" ∨
          jsToLower st.status ∈ approvalDoneStatuses.map jsToLower)) ∧
    ((∀ t ∈ approvalTasks issue, jsToLower t.status = "done" ∨
        jsToLower t.status ∈ approvalDoneStatuses.map jsToLower) →
      nextApproval issue = none) := by
  constructor
  · intro st h
    obtain ⟨pre, post, hsplit, hpre, hst⟩ :=
      find?_split _ (approvalTasks issue) st h
    refine ⟨pre, post, hsplit, ?_, ?_⟩
    · intro t ht
      exact (pendingTest_eq_false_iff t).mp (hpre t ht)
    · intro hdone
      rw [(pendingTest_eq_false_iff st).mpr hdone] at hst
      exact Bool.false_ne_true hst
  · intro hall
    apply List.find?_eq_none.mpr
    intro t ht
    rw [(pendingTest_eq_false_iff t).mpr (hall t ht)]
    exact Bool.false_ne_true

def witApprovalSt : Subtask :=
  { key := "RVS-501", summary := "[Development] BoD sign-off",
    status := "Approved", type := "BoD Approval", is_approval := none }

def witApprovalIssue : Issue :=
  { key := "RVS-500", summary := "Crypto spec", phase := "Development",
    days_in_phase := none, isa_or_non_isa := none, is_fast_track := none,
    github := none, subtasks := [witApprovalSt], linked_issues := [] }

/-- Witness for C8 (amended): an issue whose only approval subtask is
"Approved" shows no next approval. -/
theorem nextApproval_spec_witness : nextApproval witApprovalIssue = none :=
  (nextApproval_spec witApprovalIssue).2 (by decide)

end SDE
